import Mathlib

/-!
Verification of the test-run coordination plugin of `django-utils-lib`
(`django_utils_lib/testing/pytest_plugin.py` and
`django_utils_lib/testing/utils.py`).

The embedding is shallow and executable:

* Python `dict` values (the JSON-serialized collected-tests mapping) are
  modelled as insertion-ordered association lists `List (String × _)`;
  this matches CPython dict semantics: lookup finds the unique binding,
  assignment to an existing key overwrites in place keeping its position,
  assignment to a fresh key appends at the end.  The JSON encoding used by
  the store (`json.dump` / `json.load`) round-trips exactly the data that
  the plugin stores (strings, `None`, lists of strings) and preserves key
  order, so the on-disk file is modelled directly by the mapping it holds.
* The backing file of `CollectedTests` may be absent, so the disk state is
  `Option` of a mapping (`none` = the file does not exist yet).
* Python exceptions (`KeyError`) become `Except` results.
* The lock/file effects performed by the store methods are additionally
  mirrored as explicit operation traces (`FileOp`), read off the
  straight-line Python method bodies, so that lock-acquisition structure
  can be stated.
-/

set_option autoImplicit false

namespace DjangoUtilsLib

/-- A marker argument as passed to `pytest.mark.requirements(...)`: the code
only distinguishes string arguments from non-string ones
(`all(isinstance(arg, str) for arg in marker_args)`). -/
inductive PyValue where
  | str (s : String)
  | nonString
deriving DecidableEq

def PyValue.isStr : PyValue → Bool
  | .str _ => true
  | .nonString => false

def PyValue.asStr : PyValue → Option String
  | .str s => some s
  | .nonString => none

/-- The slice of a `pytest.Item` that the plugin reads: `item.nodeid`,
`item.get_closest_marker("requirements")` (absent marker or its `.args`
tuple) and `item.obj.__doc__`. -/
structure PytestItem where
  nodeid : String
  /-- `none` models an absent `requirements` marker; `some args` models a
  marker whose `.args` tuple holds `args`. -/
  requirementsMarker : Option (List PyValue)
  /-- `item.obj.__doc__`; `none` models Python `None`. -/
  docString : Option String
deriving DecidableEq

/-- `CollectedTestMetadata` (TypedDict): fields in the declaration order of
the record literal built in `pytest_collection_modifyitems`
(`node_id`, `requirements`, `doc_string`, `status`), which is the key order
the serialized dict carries. -/
structure CollectedTestMetadata where
  node_id : String
  requirements : Option (List String)
  doc_string : Option String
  /-- `TestStatus = Literal["PASS", "FAIL", ""]`. -/
  status : String
deriving DecidableEq

/-- The key order of every stored `CollectedTestMetadata` dict: the record
literal in `pytest_collection_modifyitems` inserts keys in this order, and
the JSON round-trip through the store preserves it, so
`collected_test_mappings[first].keys()` at session finish yields exactly
this list. -/
def collectedTestMetadataKeys : List String :=
  ["node_id", "requirements", "doc_string", "status"]

/-- `CollectedTestsMapping = Dict[PytestNodeID, CollectedTestMetadata]`,
as an insertion-ordered association list. -/
abbrev CollectedTestsMapping := List (String × CollectedTestMetadata)

/-- Python dict lookup `d[k]` (as an `Option`; the surrounding operation
decides whether `none` raises `KeyError`). -/
def dictGet : CollectedTestsMapping → String → Option CollectedTestMetadata
  | [], _ => none
  | (k', v) :: rest, k => if k' = k then some v else dictGet rest k

/-- Python dict assignment `d[k] = v`: overwrite in place if the key is
bound, append otherwise. -/
def dictSet : CollectedTestsMapping → String → CollectedTestMetadata → CollectedTestsMapping
  | [], k, v => [(k, v)]
  | (k', v') :: rest, k, v =>
    if k' = k then (k, v) :: rest else (k', v') :: dictSet rest k v

/-- The on-disk state of the store's backing file: `none` when
`test.temp.json` does not exist, `some m` when it holds the mapping `m`. -/
abbrev StoreFile := Option CollectedTestsMapping

namespace CollectedTests

/-- `CollectedTests._get_data`: under the file lock, return `{}` if the
backing file does not exist, else parse and return its mapping. -/
def get_data (file : StoreFile) : CollectedTestsMapping :=
  match file with
  | none => []
  | some m => m

/-- `CollectedTests.__getitem__`: `self._get_data()[node_id]`; an absent key
raises `KeyError(node_id)`. -/
def getitem (file : StoreFile) (node_id : String) :
    Except String CollectedTestMetadata :=
  match dictGet (get_data file) node_id with
  | some item => Except.ok item
  | none => Except.error node_id

/-- `CollectedTests.__setitem__`: read the whole mapping via `_get_data`,
assign the entry, then (re-acquiring the lock) write the whole mapping
back, creating the file if needed. -/
def setitem (file : StoreFile) (node_id : String) (item : CollectedTestMetadata) :
    StoreFile :=
  some (dictSet (get_data file) node_id item)

/-- `CollectedTests.update_test_status`: read the whole mapping via
`_get_data`, then `updated_data[node_id]["status"] = updated_status` —
which raises `KeyError(node_id)` when the key is absent, before the file is
ever opened for writing — then write the whole mapping back. -/
def update_test_status (file : StoreFile) (node_id : String)
    (updated_status : String) : Except String StoreFile :=
  let updated_data := get_data file
  match dictGet updated_data node_id with
  | none => Except.error node_id
  | some entry =>
      Except.ok (some (dictSet updated_data node_id { entry with status := updated_status }))

/-- Lock and file effects, in program order, as performed by the store
methods. -/
inductive FileOp where
  | lockAcquire
  | lockRelease
  | fileRead
  | fileWrite
deriving DecidableEq, BEq

/-- Effect trace of `_get_data`: `with self.file_lock:` acquires the lock,
the file is read only if it exists, and the lock is released when the
`with` block (the whole method body) exits. -/
def get_data_ops (file : StoreFile) : List FileOp :=
  [FileOp.lockAcquire] ++
    (match file with
     | none => []
     | some _ => [FileOp.fileRead]) ++
    [FileOp.lockRelease]

/-- Effect trace of `__setitem__`: the call to `self._get_data()` (its own
`with self.file_lock:` block), then a second `with self.file_lock:` block
around the write. -/
def setitem_ops (file : StoreFile) : List FileOp :=
  get_data_ops file ++ [FileOp.lockAcquire, FileOp.fileWrite, FileOp.lockRelease]

/-- Effect trace of `update_test_status`: `_get_data`'s trace, then — only
when the key exists, since `updated_data[node_id]["status"] = ...` raises
`KeyError` first otherwise — a second lock acquisition around the write. -/
def update_test_status_ops (file : StoreFile) (node_id : String) : List FileOp :=
  get_data_ops file ++
    (match dictGet (get_data file) node_id with
     | none => []
     | some _ => [FileOp.lockAcquire, FileOp.fileWrite, FileOp.lockRelease])

end CollectedTests

/-- The match test of `re.match(r"REQ-\d{3}-\d{3}", req)`: `re.match`
anchors only at the start of the string, so it succeeds exactly when the
string *begins with* `REQ-` followed by three digits, `-`, three digits —
regardless of any trailing characters.  (`\d` is modelled as a decimal
digit.) -/
def matchesReqPattern (s : String) : Bool :=
  match s.toList with
  | 'R' :: 'E' :: 'Q' :: '-' :: a :: b :: c :: '-' :: d :: e :: f :: _ =>
      a.isDigit && b.isDigit && c.isDigit && d.isDigit && e.isDigit && f.isDigit
  | _ => false

/-- A whole-string reading of the requirement pattern, written from the
claim's words ("no tag with characters beyond the fixed
three-digit/three-digit form"): the string is exactly `REQ-` + three
digits + `-` + three digits, with nothing after.  Used only to compare the
claim against `matchesReqPattern` (the behavior of `re.match`). -/
def matchesReqPatternExact (s : String) : Bool :=
  match s.toList with
  | ['R', 'E', 'Q', '-', a, b, c, '-', d, e, f] =>
      a.isDigit && b.isDigit && c.isDigit && d.isDigit && e.isDigit && f.isDigit
  | _ => false

/-- The per-tag acceptance test of `validate_requirement_tagging`:
`if not re.match(...) and req != "NA": error else: validated.append(req)`,
so a tag is accepted iff it matches the (start-anchored) pattern or equals
the literal `"NA"`. -/
def reqTagAccepted (req : String) : Bool :=
  matchesReqPattern req || req == "NA"

/-- Python string comparison `a < b`: lexicographic on code points, a
proper prefix is smaller (this is also `String.lt`'s semantics). -/
def pyStrLtChars : List Char → List Char → Bool
  | [], [] => false
  | [], _ :: _ => true
  | _ :: _, [] => false
  | a :: as, b :: bs =>
    if a.toNat < b.toNat then true
    else if b.toNat < a.toNat then false
    else pyStrLtChars as bs

def pyStrLt (a b : String) : Bool :=
  pyStrLtChars a.toList b.toList

/-- The sort check of `validate_requirement_tagging`:
`for i in range(1, len(requirements)): if requirements[i] < requirements[i-1]: ... break`
— true iff some adjacent pair is strictly decreasing under Python's `<`. -/
def hasAdjacentDecrease : List String → Bool
  | a :: b :: rest => if pyStrLt b a then true else hasAdjacentDecrease (b :: rest)
  | _ => false

/-- `RequirementValidationResults` (TypedDict). -/
structure RequirementValidationResults where
  valid : Bool
  errors : List String
  validated_requirements : List String
deriving DecidableEq

/-- `validate_requirement_tagging` (testing/utils.py): the early returns for
a missing/empty marker and for non-string args, then the sort check (at
most one error), the per-tag pattern check (the single loop appending each
rejected tag's error to `errors` and each accepted tag to
`validated_requirements`, rendered as `filterMap`/`filter`), and the final
no-valid-requirements check.  `valid` is true iff `errors` is empty. -/
def validate_requirement_tagging (item : PytestItem) : RequirementValidationResults :=
  let test_name := item.nodeid
  let marker_args := item.requirementsMarker.getD []
  if marker_args.isEmpty then
    { valid := false
      errors := [test_name ++ " missing `requirements` marker (or args)"]
      validated_requirements := [] }
  else if !(marker_args.all PyValue.isStr) then
    { valid := false
      errors := [test_name ++ " requirements must all be strings"]
      validated_requirements := [] }
  else
    let requirements := marker_args.filterMap PyValue.asStr
    let sortErrors :=
      if hasAdjacentDecrease requirements then
        [test_name ++ " requirements are not sorted correctly"]
      else []
    let patternErrors := requirements.filterMap fun req =>
      if reqTagAccepted req then none
      else some (test_name ++ " requirement " ++ req ++ " does not match pattern REQ-###-###")
    let validated_requirements := requirements.filter reqTagAccepted
    let noValidErrors :=
      if validated_requirements.isEmpty then [test_name ++ " has no valid requirements"]
      else []
    let errors := sortErrors ++ patternErrors ++ noValidErrors
    { valid := errors.isEmpty
      errors := errors
      validated_requirements := validated_requirements }

def dropLeadingWhitespace : List Char → List Char
  | [] => []
  | c :: cs => if c.isWhitespace then dropLeadingWhitespace cs else c :: cs

/-- Python `str.strip()`: remove whitespace from both ends. -/
def pyStrip (s : String) : String :=
  String.mk ((dropLeadingWhitespace (dropLeadingWhitespace s.toList).reverse).reverse)

/-- The record that one loop iteration of
`CustomPytestPlugin.pytest_collection_modifyitems` stores for an item:
`requirements` is the validator's `validated_requirements` when
`mandate_requirement_markers` is set and `[]` otherwise, `doc_string` is
`(item.obj.__doc__ or "").strip()`, `status` starts out `""`. -/
def collectedRecord (mandate : Bool) (item : PytestItem) : CollectedTestMetadata :=
  { node_id := item.nodeid
    requirements :=
      some (if mandate then (validate_requirement_tagging item).validated_requirements else [])
    doc_string := some (pyStrip (item.docString.getD ""))
    status := "" }

/-- One iteration of the `for item in items:` loop of
`pytest_collection_modifyitems`, threading the store file and the
accumulated `errors` list. -/
def collectStep (mandate : Bool) (acc : StoreFile × List String) (item : PytestItem) :
    StoreFile × List String :=
  let errors :=
    if mandate then acc.2 ++ (validate_requirement_tagging item).errors else acc.2
  (CollectedTests.setitem acc.1 item.nodeid (collectedRecord mandate item), errors)

/-- The outcome of `pytest_collection_modifyitems`: the store file after all
per-item writes, and `some errors` exactly when
`InvalidTestConfigurationError(errors)` is raised (the raise happens after
the loop, so the writes survive it). -/
structure CollectResult where
  store : StoreFile
  raisedErrors : Option (List String)
deriving DecidableEq

/-- `CustomPytestPlugin.pytest_collection_modifyitems`: validate (when
mandated) and store a record for every item, then raise
`InvalidTestConfigurationError` with the full accumulated error list if it
is non-empty. -/
def pytest_collection_modifyitems (mandate : Bool) (file : StoreFile)
    (items : List PytestItem) : CollectResult :=
  let folded := items.foldl (collectStep mandate) (file, [])
  { store := folded.1
    raisedErrors := if folded.2.isEmpty then none else some folded.2 }

/-- `PluginReportingConfiguration` (TypedDict); `omit_unexecuted_tests` is
read with `.get("omit_unexecuted_tests", False)`. -/
structure PluginReportingConfiguration where
  csv_export_path : String
  omit_unexecuted_tests : Bool
deriving DecidableEq

/-- The observable outcome of `CustomPytestPlugin.pytest_sessionfinish`:
which destination file (if any) was opened with mode `"w"`
(creating/truncating it), the header row written (if any), the data rows
written after it, and whether `next(iter(...))` raised `StopIteration`. -/
structure SessionFinishResult where
  openedPath : Option String
  header : Option (List String)
  rows : List CollectedTestMetadata
  raisedStopIteration : Bool
deriving DecidableEq

/-- `CustomPytestPlugin.pytest_sessionfinish`: no-op without a reporting
configuration; otherwise snapshot the store, open the CSV destination with
mode `"w"` (this happens before the field names are computed), derive the
header from the keys of the first entry — `next(iter(...))` raises
`StopIteration` when the mapping is empty, after the file was already
opened — write the header, then one row per entry, skipping entries with
empty `status` when `omit_unexecuted_tests` is set. -/
def pytest_sessionfinish (reporting_config : Option PluginReportingConfiguration)
    (file : StoreFile) : SessionFinishResult :=
  match reporting_config with
  | none => { openedPath := none, header := none, rows := [], raisedStopIteration := false }
  | some cfg =>
    let collected_test_mappings := CollectedTests.get_data file
    match collected_test_mappings with
    | [] =>
        { openedPath := some cfg.csv_export_path
          header := none
          rows := []
          raisedStopIteration := true }
    | _ :: _ =>
        { openedPath := some cfg.csv_export_path
          header := some collectedTestMetadataKeys
          rows := collected_test_mappings.filterMap fun kv =>
            if cfg.omit_unexecuted_tests && kv.2.status == "" then none else some kv.2
          raisedStopIteration := false }

/-- Scanning helper: does a `fileWrite` occur before the next
`lockRelease`? -/
def writeBeforeRelease : List CollectedTests.FileOp → Bool
  | [] => false
  | CollectedTests.FileOp.fileWrite :: _ => true
  | CollectedTests.FileOp.lockRelease :: _ => false
  | _ :: rest => writeBeforeRelease rest

/-- Whether, in an effect trace, the (first) file read and the following
file write happen under one single lock acquisition, i.e. no lock release
separates them. -/
def readAndWriteSameAcquisition : List CollectedTests.FileOp → Bool
  | [] => false
  | CollectedTests.FileOp.fileRead :: rest => writeBeforeRelease rest
  | _ :: rest => readAndWriteSameAcquisition rest

/-! Concrete data used to evaluate the embedding: the four test scenarios of
`django_utils_lib/tests/test_utils.py` (missing marker / bad-format tag /
unsorted tags / valid tags), an extra item exercising `re.match`'s
start-anchoring, and small store states. -/

def itemMissing : PytestItem :=
  { nodeid := "test_requirements_validation.py::test_missing_requirements"
    requirementsMarker := none
    docString := none }

def itemInvalid : PytestItem :=
  { nodeid := "test_requirements_validation.py::test_invalid_requirements"
    requirementsMarker := some [PyValue.str "Hello"]
    docString := none }

def itemUnsorted : PytestItem :=
  { nodeid := "test_requirements_validation.py::test_unsorted_requirements"
    requirementsMarker := some [PyValue.str "REQ-001-002", PyValue.str "REQ-001-001"]
    docString := none }

def itemValid : PytestItem :=
  { nodeid := "test_requirements_validation.py::test_valid_requirements"
    requirementsMarker := some [PyValue.str "REQ-004-001", PyValue.str "REQ-005-002"]
    docString := none }

/-- An item whose single tag starts with the `REQ-###-###` pattern but has a
trailing character beyond the fixed form. -/
def itemTrailingChars : PytestItem :=
  { nodeid := "test_requirements_validation.py::test_trailing_chars"
    requirementsMarker := some [PyValue.str "REQ-001-001X"]
    docString := none }

/-- The collection run of the four-test scenario with
`mandate_requirement_markers = True`, starting from a fresh store. -/
def fourTestRun : CollectResult :=
  pytest_collection_modifyitems true none [itemMissing, itemInvalid, itemUnsorted, itemValid]

def exampleMetadata : CollectedTestMetadata :=
  { node_id := "sample_test.py::test_one"
    requirements := some ["REQ-001-001"]
    doc_string := some "Example test"
    status := "" }

/-- A store whose backing file exists and holds one entry. -/
def exampleStoreFile : StoreFile :=
  some [("sample_test.py::test_one", exampleMetadata)]

def exampleReportingConfig : PluginReportingConfiguration :=
  { csv_export_path := "report.csv", omit_unexecuted_tests := false }

/-! Helper lemmas about the dict model. -/

theorem dictGet_dictSet_self (l : CollectedTestsMapping) (k : String)
    (v : CollectedTestMetadata) : dictGet (dictSet l k v) k = some v := by
  induction l with
  | nil => simp [dictGet, dictSet]
  | cons hd tl ih =>
      obtain ⟨k', v'⟩ := hd
      by_cases h : k' = k
      · simp [dictGet, dictSet, h]
      · simp [dictGet, dictSet, h, ih]

theorem dictGet_dictSet_of_ne (l : CollectedTestsMapping) (k k' : String)
    (v : CollectedTestMetadata) (h : k ≠ k') :
    dictGet (dictSet l k v) k' = dictGet l k' := by
  induction l with
  | nil => simp [dictGet, dictSet, h]
  | cons hd tl ih =>
      obtain ⟨k₀, v₀⟩ := hd
      by_cases h₀ : k₀ = k
      · subst h₀
        simp [dictGet, dictSet, h]
      · simp [dictGet, dictSet, h₀, ih]

theorem dictSet_dictSet_self (l : CollectedTestsMapping) (k : String)
    (v v' : CollectedTestMetadata) :
    dictSet (dictSet l k v) k v' = dictSet l k v' := by
  induction l with
  | nil => simp [dictSet]
  | cons hd tl ih =>
      obtain ⟨k₀, v₀⟩ := hd
      by_cases h₀ : k₀ = k
      · simp [dictSet, h₀]
      · simp [dictSet, h₀, ih]

/-- Folding the collection loop over items never touches a key that is not
among those items' node ids. -/
theorem collect_foldl_get_of_not_mem (mandate : Bool) (items : List PytestItem)
    (k : String) (h : k ∉ items.map PytestItem.nodeid) (s : StoreFile)
    (e : List String) :
    dictGet (CollectedTests.get_data ((items.foldl (collectStep mandate) (s, e)).1)) k =
      dictGet (CollectedTests.get_data s) k := by
  induction items generalizing s e with
  | nil => rfl
  | cons x xs ih =>
      simp only [List.map_cons, List.mem_cons, not_or] at h
      rw [List.foldl_cons]
      show dictGet (CollectedTests.get_data
        ((xs.foldl (collectStep mandate)
          (CollectedTests.setitem s x.nodeid (collectedRecord mandate x),
           if mandate then e ++ (validate_requirement_tagging x).errors else e)).1)) k = _
      rw [ih h.2]
      show dictGet (dictSet (CollectedTests.get_data s) x.nodeid (collectedRecord mandate x)) k = _
      exact dictGet_dictSet_of_ne _ _ _ _ (fun hx => h.1 (hx ▸ rfl))

/-- After folding the collection loop over items with pairwise-distinct node
ids, every item's node id is bound to exactly the record the loop built for
it. -/
theorem collect_foldl_get_self (mandate : Bool) (items : List PytestItem)
    (hnd : (items.map PytestItem.nodeid).Nodup) (s : StoreFile) (e : List String) :
    ∀ item ∈ items,
      dictGet (CollectedTests.get_data ((items.foldl (collectStep mandate) (s, e)).1))
          item.nodeid = some (collectedRecord mandate item) := by
  induction items generalizing s e with
  | nil => intro item hmem; cases hmem
  | cons x xs ih =>
      simp only [List.map_cons, List.nodup_cons] at hnd
      intro item hmem
      rw [List.foldl_cons]
      rcases List.mem_cons.mp hmem with rfl | hmem'
      · show dictGet (CollectedTests.get_data
          ((xs.foldl (collectStep mandate)
            (CollectedTests.setitem s item.nodeid (collectedRecord mandate item),
             if mandate then e ++ (validate_requirement_tagging item).errors else e)).1))
            item.nodeid = _
        rw [collect_foldl_get_of_not_mem mandate xs item.nodeid hnd.1]
        show dictGet (dictSet (CollectedTests.get_data s) item.nodeid
          (collectedRecord mandate item)) item.nodeid = _
        exact dictGet_dictSet_self _ _ _
      · exact ih hnd.2 _ _ item hmem'

/-! Claim theorems. -/

/-- Claim C1: the claim states that `set` and `update_status` hold the
store's file lock continuously over the whole read-modify-write sequence,
under one single acquisition.  The code does not: `_get_data` acquires and
releases the lock around the read, and the write-back happens under a
second, separate acquisition.  On a store whose backing file exists with
one entry, both the `set` trace and the `update_status` trace release the
lock between the read and the write-back, and the `set` trace acquires the
lock twice. -/
theorem rmw_lock_released_between_read_and_write :
    readAndWriteSameAcquisition (CollectedTests.setitem_ops exampleStoreFile) = false ∧
    readAndWriteSameAcquisition
      (CollectedTests.update_test_status_ops exampleStoreFile "sample_test.py::test_one") = false ∧
    (CollectedTests.setitem_ops exampleStoreFile).count CollectedTests.FileOp.lockAcquire = 2 := by
  decide

/-- Claim C6: when the backing file does not exist the store behaves as an
empty mapping (`_get_data` returns `{}` instead of crashing on
file-not-found), and for any state in which the key is absent, `get` fails
with `KeyError` (NotFound) on that key and `update_status` fails because
the key is absent. -/
theorem store_missing_file_and_absent_key (file : StoreFile) (node_id status : String)
    (h : dictGet (CollectedTests.get_data file) node_id = none) :
    CollectedTests.get_data (none : StoreFile) = [] ∧
    CollectedTests.getitem file node_id = Except.error node_id ∧
    CollectedTests.update_test_status file node_id status = Except.error node_id := by
  refine ⟨rfl, ?_, ?_⟩
  · simp [CollectedTests.getitem, h]
  · simp [CollectedTests.update_test_status, h]

/-- Witness for C6: the file-absent store, where every key is absent. -/
theorem store_missing_file_and_absent_key_witness :
    CollectedTests.get_data (none : StoreFile) = [] ∧
    CollectedTests.getitem (none : StoreFile) "sample_test.py::test_one" =
      Except.error "sample_test.py::test_one" ∧
    CollectedTests.update_test_status (none : StoreFile) "sample_test.py::test_one" "PASS" =
      Except.error "sample_test.py::test_one" :=
  store_missing_file_and_absent_key none "sample_test.py::test_one" "PASS" rfl

/-- Claim C8: round-trip — `set(id, m)` followed by `get(id)` returns `m`
unchanged (the JSON encoding round-trips every stored field exactly). -/
theorem set_get_roundtrip (file : StoreFile) (node_id : String)
    (m : CollectedTestMetadata) :
    CollectedTests.getitem (CollectedTests.setitem file node_id m) node_id =
      Except.ok m := by
  simp [CollectedTests.getitem, CollectedTests.setitem, CollectedTests.get_data,
    dictGet_dictSet_self]

/-- Claim C9: for a store state in which the entry exists, calling
`update_status(id, "PASS")` twice in a row yields the same store state as
calling it once, and the entry's status is `"PASS"`. -/
theorem update_status_pass_idempotent (file : StoreFile) (node_id : String)
    (h : (dictGet (CollectedTests.get_data file) node_id).isSome = true) :
    ∃ file₁,
      CollectedTests.update_test_status file node_id "PASS" = Except.ok file₁ ∧
      CollectedTests.update_test_status file₁ node_id "PASS" = Except.ok file₁ ∧
      ∃ m, dictGet (CollectedTests.get_data file₁) node_id = some m ∧
        m.status = "PASS" := by
  obtain ⟨entry, hget⟩ := Option.isSome_iff_exists.mp h
  refine ⟨some (dictSet (CollectedTests.get_data file) node_id
    { entry with status := "PASS" }), ?_, ?_, { entry with status := "PASS" }, ?_, rfl⟩
  · simp [CollectedTests.update_test_status, hget]
  · simp [CollectedTests.update_test_status, CollectedTests.get_data,
      dictGet_dictSet_self, dictSet_dictSet_self]
  · simp [CollectedTests.get_data, dictGet_dictSet_self]

/-- Witness for C9 on the one-entry store. -/
theorem update_status_pass_idempotent_witness :
    ∃ file₁,
      CollectedTests.update_test_status exampleStoreFile "sample_test.py::test_one" "PASS" =
        Except.ok file₁ ∧
      CollectedTests.update_test_status file₁ "sample_test.py::test_one" "PASS" =
        Except.ok file₁ ∧
      ∃ m, dictGet (CollectedTests.get_data file₁) "sample_test.py::test_one" = some m ∧
        m.status = "PASS" :=
  update_status_pass_idempotent exampleStoreFile "sample_test.py::test_one" (by decide)

/-- Claim C10: `update_status` on an absent key raises `KeyError` before the
backing file is ever opened for writing — its effect trace contains no file
write, so the on-disk mapping after the failed call is exactly what it was
before (the file is neither truncated nor rewritten, nor created). -/
theorem update_status_absent_key_no_write (file : StoreFile) (node_id status : String)
    (h : dictGet (CollectedTests.get_data file) node_id = none) :
    CollectedTests.update_test_status file node_id status = Except.error node_id ∧
    CollectedTests.FileOp.fileWrite ∉ CollectedTests.update_test_status_ops file node_id := by
  constructor
  · simp [CollectedTests.update_test_status, h]
  · cases file with
    | none =>
        simp_all [CollectedTests.update_test_status_ops, CollectedTests.get_data_ops, h]
    | some m =>
        simp_all [CollectedTests.update_test_status_ops, CollectedTests.get_data_ops, h]

/-- Witness for C10: updating a key that was never collected, against the
file-absent store. -/
theorem update_status_absent_key_no_write_witness :
    CollectedTests.update_test_status (none : StoreFile) "absent.py::test_x" "FAIL" =
      Except.error "absent.py::test_x" ∧
    CollectedTests.FileOp.fileWrite ∉
      CollectedTests.update_test_status_ops (none : StoreFile) "absent.py::test_x" :=
  update_status_absent_key_no_write none "absent.py::test_x" "FAIL" rfl

/-- Counterexample for C2: a test with unsorted but pattern-matching tags
fails validation (its errors list is non-empty), yet the record written for
it carries both tags — not an empty `requirements` field as the claim
states. -/
theorem failed_validation_nonempty_requirements_counterexample :
    (validate_requirement_tagging itemUnsorted).errors ≠ [] ∧
    dictGet
        (CollectedTests.get_data (pytest_collection_modifyitems true none [itemUnsorted]).store)
        itemUnsorted.nodeid =
      some
        { node_id := itemUnsorted.nodeid
          requirements := some ["REQ-001-002", "REQ-001-001"]
          doc_string := some ""
          status := "" } ∧
    (some ["REQ-001-002", "REQ-001-001"] : Option (List String)) ≠ some [] := by
  decide

/-- Claim C2 (amended): during collection, for every discovered test (with
distinct node ids) a `CollectedTestMetadata` record is written to the store
regardless of that test's validation outcome; its `requirements` field
equals the validator's `validated_requirements` when the mandate is
enabled (and `[]` otherwise) — which is empty when the marker is missing,
when its args are non-strings, or when no tag is valid, but can be
non-empty for a test whose validation failed only on sort order. -/
theorem collection_writes_record_for_every_item (mandate : Bool) (file : StoreFile)
    (items : List PytestItem) (hnd : (items.map PytestItem.nodeid).Nodup) :
    ∀ item ∈ items,
      dictGet
          (CollectedTests.get_data (pytest_collection_modifyitems mandate file items).store)
          item.nodeid =
        some (collectedRecord mandate item) := by
  intro item hmem
  show dictGet (CollectedTests.get_data ((items.foldl (collectStep mandate) (file, [])).1))
      item.nodeid = _
  exact collect_foldl_get_self mandate items hnd file [] item hmem

/-- Witness for C2 (amended): the valid-tags test gets its record written
even though validation for the other scenarios would fail. -/
theorem collection_writes_record_witness :
    dictGet
        (CollectedTests.get_data (pytest_collection_modifyitems true none [itemValid]).store)
        itemValid.nodeid =
      some (collectedRecord true itemValid) :=
  collection_writes_record_for_every_item true none [itemValid] (by decide) itemValid
    (by decide)

/-- Counterexample for C3: the four-test run (no tags / bad-format tag /
unsorted tags / valid tags) with the requirement mandate enabled raises the
invalid-configuration failure with four accumulated error lines, not
three. -/
theorem four_test_run_not_three_errors_counterexample :
    Option.map List.length fourTestRun.raisedErrors = some 4 ∧
    Option.map List.length fourTestRun.raisedErrors ≠ some 3 := by
  decide

/-- Claim C3 (amended): the four-test run with
`mandate_requirement_markers = True` aborts before execution by raising
`InvalidTestConfigurationError`, whose accumulated list holds exactly four
error lines — the bad-format test contributes two (pattern mismatch and
no-valid-requirements) — and no stored test ever reaches an executed
status (every record's status is still `""`). -/
theorem four_test_run_aborts_with_four_errors :
    fourTestRun.raisedErrors =
      some
        ["test_requirements_validation.py::test_missing_requirements missing `requirements` marker (or args)",
         "test_requirements_validation.py::test_invalid_requirements requirement Hello does not match pattern REQ-###-###",
         "test_requirements_validation.py::test_invalid_requirements has no valid requirements",
         "test_requirements_validation.py::test_unsorted_requirements requirements are not sorted correctly"] ∧
    ∀ kv ∈ CollectedTests.get_data fourTestRun.store, kv.2.status = "" := by
  decide

/-- Claim C4: the claim states that an empty snapshot at session finish
(with a report destination configured) fails loudly without producing a
headerless or malformed file at the destination.  The code opens the
destination with mode `"w"` — creating/truncating it to an empty,
headerless file — before `next(iter(...))` raises `StopIteration`: the
raise happens, but an empty file is left at the destination path, for both
an absent backing file and one holding `{}`. -/
theorem sessionfinish_empty_snapshot_headerless_file :
    pytest_sessionfinish (some exampleReportingConfig) none =
      { openedPath := some "report.csv"
        header := none
        rows := []
        raisedStopIteration := true } ∧
    pytest_sessionfinish
        (some { csv_export_path := "report.csv", omit_unexecuted_tests := true })
        (some []) =
      { openedPath := some "report.csv"
        header := none
        rows := []
        raisedStopIteration := true } :=
  ⟨rfl, rfl⟩

/-- Counterexample for C5: on a non-empty snapshot the CSV header's field
order is `node_id, requirements, doc_string, status` (the construction
order of the record literal in `pytest_collection_modifyitems`), not
`node_id, doc_string, requirements, status` as the claim states. -/
theorem csv_header_order_counterexample :
    (pytest_sessionfinish (some exampleReportingConfig) exampleStoreFile).header =
      some ["node_id", "requirements", "doc_string", "status"] ∧
    (pytest_sessionfinish (some exampleReportingConfig) exampleStoreFile).header ≠
      some ["node_id", "doc_string", "requirements", "status"] := by
  decide

/-- Claim C5 (amended): for any configured report over a non-empty
snapshot, the CSV written at session finish has a header row whose field
names are, in order, `node_id, requirements, doc_string, status`, followed
by one data row per surviving (non-omitted) entry, and no error is
raised. -/
theorem csv_report_header_and_rows (cfg : PluginReportingConfiguration)
    (file : StoreFile) (h : CollectedTests.get_data file ≠ []) :
    (pytest_sessionfinish (some cfg) file).header = some collectedTestMetadataKeys ∧
    (pytest_sessionfinish (some cfg) file).rows =
      (CollectedTests.get_data file).filterMap
        (fun kv => if cfg.omit_unexecuted_tests && kv.2.status == "" then none
                   else some kv.2) ∧
    (pytest_sessionfinish (some cfg) file).raisedStopIteration = false := by
  unfold pytest_sessionfinish
  cases hd : CollectedTests.get_data file with
  | nil => exact absurd hd h
  | cons x xs => simp [hd]

/-- Witness for C5 (amended) on the one-entry store. -/
theorem csv_report_header_and_rows_witness :
    (pytest_sessionfinish (some exampleReportingConfig) exampleStoreFile).header =
      some collectedTestMetadataKeys ∧
    (pytest_sessionfinish (some exampleReportingConfig) exampleStoreFile).rows =
      (CollectedTests.get_data exampleStoreFile).filterMap
        (fun kv => if exampleReportingConfig.omit_unexecuted_tests && kv.2.status == ""
                   then none else some kv.2) ∧
    (pytest_sessionfinish (some exampleReportingConfig) exampleStoreFile).raisedStopIteration =
      false :=
  csv_report_header_and_rows exampleReportingConfig exampleStoreFile (by decide)

theorem all_isStr_map_str (args : List String) :
    (args.map PyValue.str).all PyValue.isStr = true := by
  induction args with
  | nil => rfl
  | cons a l ih => simp [PyValue.isStr, ih]

theorem filterMap_asStr_map_str (args : List String) :
    (args.map PyValue.str).filterMap PyValue.asStr = args := by
  induction args with
  | nil => rfl
  | cons a l ih => simp [PyValue.asStr, ih]

/-- Counterexample for C7: `"REQ-001-001X"` has characters beyond the fixed
three-digit/three-digit form (it is not an exact match of the pattern and
not the `"NA"` sentinel), yet the validator accepts it — no error is
produced and the tag lands in `validated_requirements` — because
`re.match` anchors only at the start of the string. -/
theorem validator_accepts_oversized_tag_counterexample :
    matchesReqPatternExact "REQ-001-001X" = false ∧
    "REQ-001-001X" ≠ "NA" ∧
    (validate_requirement_tagging itemTrailingChars).errors = [] ∧
    (validate_requirement_tagging itemTrailingChars).validated_requirements =
      ["REQ-001-001X"] := by
  decide

/-- Claim C7 (amended): for a non-empty all-string tag sequence, every tag
that neither equals the `"NA"` sentinel nor *starts with* the
`REQ-<three digits>-<three digits>` pattern contributes exactly one error
naming that tag and the expected pattern, in tag order; every tag that is
the sentinel or starts with the pattern is accumulated into
`validated_requirements`; the only other errors are the (at most one) sort
error before the per-tag errors and the (at most one)
no-valid-requirements error after them. -/
theorem validator_pattern_errors_and_validated (item : PytestItem) (args : List String)
    (hm : item.requirementsMarker = some (args.map PyValue.str)) (hne : args ≠ []) :
    (validate_requirement_tagging item).validated_requirements =
      args.filter reqTagAccepted ∧
    ∃ pre post,
      (validate_requirement_tagging item).errors =
        pre ++
          (args.filterMap fun req =>
            if reqTagAccepted req then none
            else some (item.nodeid ++ " requirement " ++ req ++
              " does not match pattern REQ-###-###")) ++
          post ∧
      (pre = [] ∨ pre = [item.nodeid ++ " requirements are not sorted correctly"]) ∧
      (post = [] ∨ post = [item.nodeid ++ " has no valid requirements"]) := by
  have hempty : (args.map PyValue.str).isEmpty = false := by
    cases args with
    | nil => exact absurd rfl hne
    | cons a l => rfl
  unfold validate_requirement_tagging
  rw [hm]
  simp only [Option.getD_some, hempty, Bool.false_eq_true, if_false,
    all_isStr_map_str, Bool.not_true, filterMap_asStr_map_str]
  refine ⟨by trivial, ?_⟩
  by_cases hs : hasAdjacentDecrease args
  · by_cases hv : (args.filter reqTagAccepted).isEmpty
    · exact ⟨_, _, by simp [hs, hv], Or.inr rfl, Or.inr rfl⟩
    · exact ⟨_, _, by simp [hs, hv], Or.inr rfl, Or.inl rfl⟩
  · by_cases hv : (args.filter reqTagAccepted).isEmpty
    · exact ⟨_, _, by simp [hs, hv], Or.inl rfl, Or.inr rfl⟩
    · exact ⟨_, _, by simp [hs, hv], Or.inl rfl, Or.inl rfl⟩

/-- Witness for C7 (amended): the unsorted-tags scenario, whose two tags
both start with the pattern, so no per-tag error arises and both tags are
validated. -/
theorem validator_pattern_errors_witness :
    (validate_requirement_tagging itemUnsorted).validated_requirements =
      ["REQ-001-002", "REQ-001-001"].filter reqTagAccepted ∧
    ∃ pre post,
      (validate_requirement_tagging itemUnsorted).errors =
        pre ++
          (["REQ-001-002", "REQ-001-001"].filterMap fun req =>
            if reqTagAccepted req then none
            else some (itemUnsorted.nodeid ++ " requirement " ++ req ++
              " does not match pattern REQ-###-###")) ++
          post ∧
      (pre = [] ∨ pre = [itemUnsorted.nodeid ++ " requirements are not sorted correctly"]) ∧
      (post = [] ∨ post = [itemUnsorted.nodeid ++ " has no valid requirements"]) :=
  validator_pattern_errors_and_validated itemUnsorted ["REQ-001-002", "REQ-001-001"] rfl
    (by decide)

end DjangoUtilsLib
